import Mathlib

/-!
# Verification of the orangebox blackbox-log parser

A shallow embedding of the Python sources `orangebox/parser.py`,
`orangebox/reader.py` and `orangebox/events.py` (a Cleanflight/Betaflight
blackbox flight-log parser), together with theorems settling a list of
claims about the parser's behaviour.

Bytes are modelled as `Nat` (each < 256 in practice), Python integers as
`Int`/`Nat`, Python exceptions as an explicit error type, and the
generator `Parser.frames()` as a fuel-indexed loop over an explicit
state record.  Modules of the repository that are not part of the given
sources (`types.py`, `context.py`, `decoders.py`, `tools.py`) are
modelled from the specification; each such definition is marked
`Modelled from the spec:` in its doc comment.
-/

namespace Orangebox

/-- Python exceptions that the embedded code can raise.  Messages are
irrelevant to the claims and are not modelled. -/
inductive PyErr where
  | typeError
  | valueError
  | indexError
  | keyError
  | nameError
  | runtimeError
  deriving DecidableEq, Repr

/-- Result of running a piece of embedded Python code: `div` models
nontermination (exhausted fuel), `err` a raised exception, `ok` a normal
return value. -/
inductive PyResult (α : Type) where
  | div
  | err (e : PyErr)
  | ok (a : α)
  deriving DecidableEq, Repr

namespace PyResult

def bind {α β : Type} : PyResult α → (α → PyResult β) → PyResult β
  | .div, _ => .div
  | .err e, _ => .err e
  | .ok a, f => f a

instance : Monad PyResult where
  pure := .ok
  bind := PyResult.bind

end PyResult

/-- One cell of a decoded frame tuple: decoded fields are integers, the
missing slow/gps padding is the empty string (`parser.py` line 55). -/
inductive Cell where
  | int (i : Int)
  | str (s : String)
  deriving DecidableEq, Repr

/-- Modelled from the spec: frame kinds from `types.py` (not among the
given sources); spec section 4.4 maps `I/P/S/G/H/E` to
Intra/Inter/Slow/Gps/GpsHome/Event. -/
inductive FrameType where
  | INTRA
  | INTER
  | SLOW
  | GPS
  | GPS_HOME
  | EVENT
  deriving DecidableEq, Repr

/-- The frame-type dispatch table `{ord(ft.value): ft}` built in
`Parser.__init__` (`parser.py` line 54): byte values are the ASCII codes
of `I P S G H E`. -/
def byteToFrameType : Nat → Option FrameType
  | 73 => some .INTRA
  | 80 => some .INTER
  | 83 => some .SLOW
  | 71 => some .GPS
  | 72 => some .GPS_HOME
  | 69 => some .EVENT
  | _ => none

/-- A decoded frame: frame kind plus the tuple of decoded values. -/
structure Frame where
  ftype : FrameType
  data : List Cell
  deriving DecidableEq, Repr

/-- A decoder result: either a single value or a tuple of values that
fills several consecutive field slots (`parser.py` lines 272-280). -/
inductive DecodedValue where
  | scalar (v : Int)
  | tup (vs : List Int)
  deriving DecidableEq, Repr

/-- Embeds `MAX_TIME_JUMP` from `parser.py` line 26. -/
def MAX_TIME_JUMP : Int := 10 * 1000000

/-- Embeds `MAX_ITER_JUMP` from `parser.py` line 27. -/
def MAX_ITER_JUMP : Int := 500 * 10

/-! ## The `Reader` cursor (`reader.py`)

Only the session-buffer cursor interface used by frame parsing is
embedded; file discovery and header I/O are modelled at the level of
byte lists.  `data` is `_frame_data`, `ptr` is `_frame_data_ptr`. -/

structure Reader where
  data : List Nat
  ptr : Nat
  deriving DecidableEq, Repr

namespace Reader

/-- Embeds `Reader.__next__` (`reader.py` lines 349-354): returns `None` when
the cursor sits exactly at the end, otherwise the byte at the cursor,
advancing by one.  A cursor strictly past the end would raise
`IndexError` in Python; that state is modelled as returning `none`
without advancing (never reached by the embedded parser loop). -/
def next (r : Reader) : Option Nat × Reader :=
  if r.data.length = r.ptr then (none, r)
  else
    match r.data.get? r.ptr with
    | some b => (some b, { r with ptr := r.ptr + 1 })
    | none => (none, r)

/-- Embeds `Reader.value` (`reader.py` lines 324-329). -/
def value (r : Reader) : Option Nat :=
  if r.data.length = r.ptr then none else r.data.get? r.ptr

/-- Embeds `Reader.has_subsequent` (`reader.py` lines 331-334): slice-compare
the upcoming bytes against `data` without moving the cursor. -/
def hasSubsequent (r : Reader) (pat : List Nat) : Bool :=
  (r.data.drop r.ptr).take pat.length == pat

/-- Embeds `Reader.tell` (`reader.py` lines 336-339). -/
def tell (r : Reader) : Nat := r.ptr

/-- Embeds `Reader.seek` (`reader.py` lines 341-344): sets the cursor to `n`
unconditionally. -/
def seek (r : Reader) (n : Nat) : Reader := { r with ptr := n }

end Reader

/-- Modelled from the spec: `_unsigned_vb` from `decoders.py` (not among
the given sources).  Spec glossary: a varint is a variable-length
integer in 7-bit little-endian groups with continuation bit `0x80`.
Reading past the end of the buffer hits Python's `None` byte and raises
`TypeError` (as the sibling loop in `events.py` would). -/
def unsignedVBLoop (r : Reader) (value : Nat) (shift : Nat) :
    PyResult (Nat × Reader) :=
  match h : r.next with
  | (none, _) => .err .typeError
  | (some b, r1) =>
    let value1 := value ||| ((b &&& 0x7F) <<< shift)
    if b &&& 0x80 = 0 then .ok (value1, r1)
    else unsignedVBLoop r1 value1 (shift + 7)
termination_by r.data.length - r.ptr
decreasing_by
  unfold Reader.next at h
  by_cases hlen : r.data.length = r.ptr
  · simp [hlen] at h
  · simp only [hlen, if_false] at h
    cases hg : r.data.get? r.ptr with
    | none => rw [hg] at h; simp at h
    | some c =>
      rw [hg] at h
      simp only [Prod.mk.injEq] at h
      have hlt : r.ptr < r.data.length := (List.get?_eq_some.mp hg).1
      rw [← h.2]
      simp only [List.length_nil]
      omega

/-- Modelled from the spec: entry point of the unsigned varint decoder. -/
def unsignedVB (r : Reader) : PyResult (Nat × Reader) :=
  unsignedVBLoop r 0 0

/-- The loop of `read_signed_vb` (`events.py` lines 114-130),
accumulating the 7-bit groups.  Returns the accumulated value together
with the final `shift`. -/
def readSignedVBLoop (r : Reader) (value : Nat) (shift : Nat) :
    PyResult (Nat × Nat × Reader) :=
  match h : r.next with
  | (none, _) => .err .typeError
  | (some b, r1) =>
    let value1 := value ||| ((b &&& 0x7F) <<< shift)
    if b &&& 0x80 = 0 then .ok (value1, shift, r1)
    else readSignedVBLoop r1 value1 (shift + 7)
termination_by r.data.length - r.ptr
decreasing_by
  unfold Reader.next at h
  by_cases hlen : r.data.length = r.ptr
  · simp [hlen] at h
  · simp only [hlen, if_false] at h
    cases hg : r.data.get? r.ptr with
    | none => rw [hg] at h; simp at h
    | some c =>
      rw [hg] at h
      simp only [Prod.mk.injEq] at h
      have hlt : r.ptr < r.data.length := (List.get?_eq_some.mp hg).1
      rw [← h.2]
      simp only [List.length_nil]
      omega

/-- Embeds `read_signed_vb` (`events.py` lines 114-130).  The Python sign
extension `value |= -(1 << (shift + 7))` when bit `shift + 6` is set
equals `value - 2 ^ (shift + 7)` because the accumulated value is below
`2 ^ (shift + 7)`. -/
def readSignedVB (r : Reader) : PyResult (Int × Reader) := do
  let (value, shift, r1) ← readSignedVBLoop r 0 0
  if value.testBit (shift + 6) then
    pure ((value : Int) - 2 ^ (shift + 7), r1)
  else
    pure ((value : Int), r1)

/-- Embeds `read_u32` (`events.py` lines 133-139): four bytes, big-endian.  A
missing byte is Python `None` and the shift raises `TypeError`. -/
def readU32 (r : Reader) : PyResult (Nat × Reader) := do
  let (b1?, r1) := r.next
  let (b2?, r2) := r1.next
  let (b3?, r3) := r2.next
  let (b4?, r4) := r3.next
  match b1?, b2?, b3?, b4? with
  | some b1, some b2, some b3, some b4 =>
    pure ((b1 <<< 24) ||| (b2 <<< 16) ||| (b3 <<< 8) ||| b4, r4)
  | _, _, _, _ => .err .typeError

/-! ## Events (`events.py`) -/

/-- Modelled from the spec: event kinds from `types.py` (not among the
given sources).  Spec section 4.5 lists sync-beep, flight-mode,
inflight-adjustment, logging-resume, log-end plus recognized
placeholders that produce no payload; the placeholders are collapsed
into one constructor. -/
inductive EventType where
  | SYNC_BEEP
  | FLIGHT_MODE
  | INFLIGHT_ADJUSTMENT
  | LOGGING_RESUME
  | LOG_END
  | PLACEHOLDER
  deriving DecidableEq, Repr

/-- Modelled from the spec: `EventType(byte)` (`types.py` not among the
given sources).  Byte values follow the end-to-end scenarios of spec
section 8: sync-beep `0x00`, flight-mode `0x05`, log-end `0xFF`;
inflight-adjustment and logging-resume use the flight-controller ids 13
and 14.  `none` models the `ValueError` of an unknown id (and of the
absent byte `None`). -/
def eventTypeOfByte : Option Nat → Option EventType
  | some 0 => some .SYNC_BEEP
  | some 5 => some .FLIGHT_MODE
  | some 13 => some .INFLIGHT_ADJUSTMENT
  | some 14 => some .LOGGING_RESUME
  | some 255 => some .LOG_END
  | _ => none

/-- Structured event payloads emitted by the event parsers in
`events.py`.  Python returns small dicts; each dict shape is one
constructor here. -/
inductive EPayload where
  | syncBeep (time : Nat)
  | flightMode (newFlags oldFlags : Nat)
  | inflightAdj (name : String) (func : Nat) (value : ℚ)
  deriving DecidableEq, Repr

/-- One log event (`Event(event_type, event_data, last_time, last_iter)`
built in `parser.py` line 298). -/
structure Event where
  etype : EventType
  data : Option EPayload
  time : Option Int
  iter : Int
  deriving DecidableEq, Repr

/-- Embeds `END_OF_LOG_MESSAGE = b'End of log\x00'` (`events.py` line 24) as
bytes. -/
def endOfLogMessage : List Nat :=
  [69, 110, 100, 32, 111, 102, 32, 108, 111, 103, 0]

/-- Embeds `INFLIGHT_ADJUSTMENT_FUNCTIONS` (`events.py` lines 84-106): name,
optional integer scale, optional float scale.  The Python float scale
literals are exact decimal fractions, represented as rationals. -/
def inflightAdjustmentFunctions : List (String × Option ℚ × Option ℚ) :=
  [("None", none, none),
   ("RC Rate", some (1 / 100), none),
   ("RC Expo", some (1 / 100), none),
   ("Throttle Expo", some (1 / 100), none),
   ("Pitch & Roll Rate", some (1 / 100), none),
   ("Yaw rate", some (1 / 100), none),
   ("Pitch & Roll P", some (1 / 10), some 1),
   ("Pitch & Roll I", some (1 / 1000), some (1 / 10)),
   ("Pitch & Roll D", none, some 1000),
   ("Yaw P", some (1 / 10), some 1),
   ("Yaw I", some (1 / 1000), some (1 / 10)),
   ("Yaw D", none, some 1000),
   ("Rate Profile", none, none),
   ("Pitch Rate", some (1 / 100), none),
   ("Roll Rate", some (1 / 100), none),
   ("Pitch P", some (1 / 10), some 1),
   ("Pitch I", some (1 / 1000), some (1 / 10)),
   ("Pitch D", none, some 1000),
   ("Roll P", some (1 / 10), some 1),
   ("Roll I", some (1 / 1000), some (1 / 10)),
   ("Roll D", none, some 1000)]

/-- Python `round(x, 4)`: round half to even at four decimal places.
Numeric scaling is modelled in exact rational arithmetic. -/
def pyRound4 (q : ℚ) : ℚ :=
  let y : ℚ := q * 10000
  let f : Int := ⌊y⌋
  let r : Int :=
    if y - f < 1 / 2 then f
    else if y - f > 1 / 2 then f + 1
    else if Even f then f else f + 1
  (r : ℚ) / 10000

/-- Embeds `inflight_adjustment` (`events.py` lines 142-192).  The float
variant calls `uint32ToFloat`, whose body references the name `struct`;
`events.py` never imports `struct`, so that call raises `NameError`
after `read_u32` has consumed its four bytes. -/
def inflightAdjustment (r : Reader) : PyResult (Option EPayload × Reader) := do
  let (tmp?, r1) := r.next
  match tmp? with
  | none => .err .typeError
  | some tmp => do
    let func := tmp &&& 127
    let (value, r2) ← (if tmp < 128 then
        readSignedVB r1
      else do
        let (_, _) ← readU32 r1
        (.err .nameError : PyResult (Int × Reader)))
    let value : ℚ := (value : ℚ)
    match inflightAdjustmentFunctions.get? func with
    | none =>
      pure (some (.inflightAdj "Unknown" func value), r2)
    | some (nm, scale?, scalef?) =>
      let scale : ℚ := match scale? with
        | some sc => sc
        | none => 1
      let scale : ℚ :=
        if 128 ≤ tmp then
          match scalef? with
          | some sf => sf
          | none => scale
        else scale
      pure (some (.inflightAdj nm func (pyRound4 (value * scale))), r2)

/-- Embeds `logging_end` (`events.py` lines 201-205): checks for the
`End of log` sentinel with `has_subsequent` (logging an error when it is
absent, a side effect not otherwise observable), consumes nothing and
returns no payload. -/
def loggingEnd (r : Reader) : PyResult (Option EPayload × Reader) :=
  let _sentinelPresent := r.hasSubsequent endOfLogMessage
  .ok (none, r)

/-- Embeds `sync_beep` (`events.py` lines 29-31). -/
def syncBeep (r : Reader) : PyResult (Option EPayload × Reader) := do
  let (t, r1) ← unsignedVB r
  pure (some (.syncBeep t), r1)

/-- Embeds `flight_mode` (`events.py` lines 34-39). -/
def flightMode (r : Reader) : PyResult (Option EPayload × Reader) := do
  let (n, r1) ← unsignedVB r
  let (o, r2) ← unsignedVB r1
  pure (some (.flightMode n o), r2)

/-- The `event_map` registry (`events.py`): parsers for recognized event
kinds; the TODO placeholders return `None` without reading. -/
def eventParserFor : EventType → Reader → PyResult (Option EPayload × Reader)
  | .SYNC_BEEP => syncBeep
  | .FLIGHT_MODE => flightMode
  | .INFLIGHT_ADJUSTMENT => inflightAdjustment
  | .LOGGING_RESUME => fun r => .ok (none, r)
  | .LOG_END => loggingEnd
  | .PLACEHOLDER => fun r => .ok (none, r)

/-! ## Context and the field pipeline -/

/-- Modelled from the spec: the per-session `Context` from `context.py`
(not among the given sources).  Spec section 3: current frame kind,
current field index, partially built current frame, history of frames,
counters, last loop-iteration; plus the per-kind field names and field
counts that the parser reads through `ctx.field_def_counts` and
`ctx.get_current_value_by_name`. -/
structure Context where
  frameType : FrameType
  fieldIndex : Nat
  currentFrame : List Cell
  invalidFrameCount : Nat
  readFrameCount : Nat
  lastIter : Int
  frames : List Frame
  fieldNames : FrameType → List String
  fieldDefCounts : FrameType → Nat

namespace Context

/-- Embeds `ctx.invalid_frame_count += 1`. -/
def bumpInvalid (c : Context) : Context :=
  { c with invalidFrameCount := c.invalidFrameCount + 1 }

/-- Embeds `ctx.read_frame_count += 1`. -/
def bumpRead (c : Context) : Context :=
  { c with readFrameCount := c.readFrameCount + 1 }

/-- Modelled from the spec: `ctx.add_frame` appends to the session frame
history (spec section 3, Context entity). -/
def addFrame (c : Context) (f : Frame) : Context :=
  { c with frames := c.frames ++ [f] }

/-- Modelled from the spec: `ctx.get_current_value_by_name(ftype, name)`
from `context.py` (not among the given sources).  Spec section 4.4 reads
it as "the field-lookup of `time`": the value of the named field inside
the current-frame snapshot.  A name missing from the field list is a
Python `ValueError`, an index beyond the snapshot an `IndexError`, and a
non-integer cell would make the caller's comparisons raise `TypeError`. -/
def getCurrentValueByName (c : Context) (ft : FrameType) (name : String) :
    PyResult Int :=
  match (c.fieldNames ft).indexOf? name with
  | none => .err .valueError
  | some i =>
    match c.currentFrame.get? i with
    | none => .err .indexError
    | some (Cell.int v) => .ok v
    | some (Cell.str _) => .err .typeError

end Context

/-- A bound field definition as `Parser.frames()` consumes it: a field
name plus the decoder and predictor functions bound at build time
(`FieldDef.decoderfun` / `FieldDef.predictorfun`).  The frame loop is
generic in these functions, exactly as the source is. -/
structure FieldDefRT where
  name : String
  decoderfun : Reader → Context → Option DecodedValue × Reader
  predictorfun : Int → Context → Int

/-- The field-def map `reader.field_defs` as the frame loop sees it. -/
abbrev FieldDefs : Type := FrameType → Option (List FieldDefRT)

/-- The inner `for v in rawvalue` loop of `_parse_frame_optimized`
(`parser.py` lines 273-277): each tuple element is predicted with the
field definition at the current field index; `ctx.current_frame` stays
at the snapshot taken before the decode while `ctx.field_index` advances
per element.  Running past the definition vector raises `IndexError`. -/
def applyTupleElems (fdefs : List FieldDefRT) (ctx : Context)
    (result : List Cell) (idx : Nat) :
    List Int → PyResult (List Cell × Nat)
  | [] => .ok (result, idx)
  | v :: vs =>
    match fdefs.get? idx with
    | none => .err .indexError
    | some fdef =>
      let ctx1 := { ctx with fieldIndex := idx }
      applyTupleElems fdefs ctx
        (result ++ [Cell.int (fdef.predictorfun v ctx1)]) (idx + 1) vs

/-- The `while` loop of `_parse_frame_optimized` (`parser.py` lines
255-282): while `field_index < field_count`, snapshot the partial frame
into `ctx.current_frame`, decode, predict, append.  `none` in the
returned `Option Frame` is a failed decode ("corrupt frame"); fuel
models the Python divergence on an empty decoder tuple.  On exit the
context keeps the snapshot taken at the start of the last iteration,
as in the source. -/
def parseFieldsLoop (fdefs : List FieldDefRT) (fuel : Nat) (r : Reader)
    (ctx : Context) (result : List Cell) (idx : Nat) :
    PyResult (Option Frame × Reader × Context) :=
  if idx < ctx.fieldDefCounts ctx.frameType then
    if hf : fuel = 0 then .div
    else
      let ctx1 := { ctx with currentFrame := result, fieldIndex := idx }
      match fdefs.get? idx with
      | none => .err .indexError
      | some fdef =>
        match fdef.decoderfun r ctx1 with
        | (none, r1) => .ok (none, r1, ctx1)
        | (some (.scalar v), r1) =>
          let result1 := result ++ [Cell.int (fdef.predictorfun v ctx1)]
          parseFieldsLoop fdefs (fuel - 1) r1 { ctx1 with fieldIndex := idx + 1 }
            result1 (idx + 1)
        | (some (.tup vs), r1) =>
          match applyTupleElems fdefs ctx1 result idx vs with
          | .div => .div
          | .err e => .err e
          | .ok (result1, idx1) =>
            parseFieldsLoop fdefs (fuel - 1) r1 { ctx1 with fieldIndex := idx1 }
              result1 idx1
  else
    .ok (some { ftype := ctx.frameType, data := result }, r, ctx)
termination_by fuel
decreasing_by
  all_goals omega

/-- Embeds `_parse_frame_optimized` (`parser.py` lines 255-282): reset
`ctx.field_index` to 0 and run the field loop. -/
def parseFrameOptimized (fdefs : List FieldDefRT) (fuel : Nat) (r : Reader)
    (ctx : Context) : PyResult (Option Frame × Reader × Context) :=
  parseFieldsLoop fdefs fuel r { ctx with fieldIndex := 0 } [] 0

/-! ## Building the final frame (`parser.py` lines 232-253) -/

/-- Embeds `self._empty_frame_data = [""] * 50` (`parser.py` line 55). -/
def emptyFrameData : List Cell := List.replicate 50 (Cell.str "")

/-- Python's `l[:n]` on a list, including the negative-stop case
(`stop = len + n`, clamped at 0). -/
def pySliceTo (l : List Cell) (n : Int) : List Cell :=
  let stop : Int := if n < 0 then (l.length : Int) + n else n
  l.take (max stop 0).toNat

/-- Embeds `_build_final_frame` (`parser.py` lines 232-253): append the cached
slow data (or an empty-string pad sliced from the 50-element
`_empty_frame_data`) when Slow fields are declared, then the cached gps
data without its leading time column (or a pad of `gps_field_count - 1`)
when Gps fields are declared.  Note the body reads the parser attributes
`_last_slow_data` / `_last_gps_data`, not its `last_slow` / `last_gps`
arguments. -/
def buildFinalFrame (fd : FieldDefs)
    (lastSlowData lastGpsData : Option (List Cell))
    (ft : FrameType) (frame : Frame) : Frame :=
  let slowExtra : List Cell :=
    match fd .SLOW with
    | none => []
    | some defs =>
      match lastSlowData with
      | some d => d
      | none => pySliceTo emptyFrameData (defs.length : Int)
  let gpsExtra : List Cell :=
    match fd .GPS with
    | none => []
    | some defs =>
      match lastGpsData with
      | some d => d.drop 1
      | none => pySliceTo emptyFrameData ((defs.length : Int) - 1)
  { ftype := ft, data := frame.data ++ (slowExtra ++ gpsExtra) }

/-! ## The frame stream state machine (`Parser.frames()`) -/

/-- The state of one run of the `Parser.frames()` generator: the reader,
the loop-local cursor `ptr`, the context, the generator locals
`last_slow`, `last_gps`, `last_time`, `last_iter`, the parser attributes
`_last_slow_data`, `_last_gps_data`, `_end_of_log`, `_events`. -/
structure FramesState where
  reader : Reader
  ptr : Nat
  ctx : Context
  lastSlow : Option Frame
  lastGps : Option Frame
  lastTime : Option Int
  lastIter : Int
  lastSlowData : Option (List Cell)
  lastGpsData : Option (List Cell)
  endOfLog : Bool
  events : List Event

/-- Embeds `Parser._parse_event_frame` (`parser.py` lines 288-301): read the
event-id byte, look it up (`ValueError` for an unknown id — including
the absent byte `None` — is caught and reported as failure), run the
registered event parser, append the event and flag end-of-log for
`LOG_END`.  Returns (success, reader, appended event, end-of-log flag).
Exceptions raised by the event parser itself are not caught. -/
def parseEventFrame (r : Reader) (lastTime : Option Int) (lastIter : Int) :
    PyResult (Bool × Reader × Option Event × Bool) :=
  let (byte, r1) := r.next
  match eventTypeOfByte byte with
  | none => .ok (false, r1, none, false)
  | some et =>
    match eventParserFor et r1 with
    | .div => .div
    | .err e => .err e
    | .ok (payload, r2) =>
      .ok (true, r2,
        some { etype := et, data := payload, time := lastTime, iter := lastIter },
        et == EventType.LOG_END)

/-- The tail of the main-frame arm of `Parser.frames()` (`parser.py`
lines 213-230): build the final frame, run the corruption look-ahead on
the byte at the new cursor, and either drop (count invalid, resync one
byte further) or count, record and yield the frame before continuing
with `cont`. -/
def mainTail (fd : FieldDefs)
    (cont : FramesState → PyResult (List Frame × FramesState))
    (s : FramesState) (ft : FrameType) (frame : Frame) :
    PyResult (List Frame × FramesState) :=
  let finalFrame := buildFinalFrame fd s.lastSlowData s.lastGpsData ft frame
  let nextPtr := s.reader.ptr
  let corrupt : Bool :=
    match s.reader.data.get? nextPtr with
    | some b => (byteToFrameType b).isNone
    | none => false
  if corrupt then
    cont { s with ctx := s.ctx.bumpInvalid, ptr := nextPtr + 1 }
  else
    match cont { s with ctx := (s.ctx.bumpRead).addFrame finalFrame,
                        ptr := s.reader.ptr } with
    | .div => .div
    | .err e => .err e
    | .ok (fs, st) => .ok (finalFrame :: fs, st)

/-- The iteration-count validation of `Parser.frames()` (`parser.py`
lines 201-211): read `loopIteration`, store it into `ctx.last_iter`,
and drop the frame as iteration desync when the previous iteration is
greater-or-equal and the sum exceeds `MAX_ITER_JUMP`; on a drop the
local `last_iter` tracker moves to the dropped frame's value and both
counters are bumped. -/
def handleMainIter (fd : FieldDefs)
    (cont : FramesState → PyResult (List Frame × FramesState))
    (s : FramesState) (ft : FrameType) (frame : Frame) :
    PyResult (List Frame × FramesState) :=
  match s.ctx.getCurrentValueByName ft "loopIteration" with
  | .div => .div
  | .err e => .err e
  | .ok currentIter =>
    let s1 := { s with ctx := { s.ctx with lastIter := currentIter } }
    if s.lastIter ≥ currentIter ∧ MAX_ITER_JUMP < currentIter + s.lastIter then
      cont { s1 with lastIter := currentIter,
                     ctx := (s1.ctx.bumpRead).bumpInvalid,
                     ptr := s1.reader.ptr }
    else
      mainTail fd cont { s1 with lastIter := currentIter } ft frame

/-- The time validation of `Parser.frames()` (`parser.py` lines
187-199): read `time`; when a previous time exists, compute
`time_diff = current_time - last_time` and drop the frame as time
desync when `last_time >= current_time` and
`MAX_TIME_JUMP < time_diff`; otherwise update the tracker and fall
through to the iteration check. -/
def handleMain (fd : FieldDefs)
    (cont : FramesState → PyResult (List Frame × FramesState))
    (s : FramesState) (ft : FrameType) (frame : Frame) :
    PyResult (List Frame × FramesState) :=
  match s.ctx.getCurrentValueByName ft "time" with
  | .div => .div
  | .err e => .err e
  | .ok currentTime =>
    match s.lastTime with
    | some lastTime =>
      let timeDiff := currentTime - lastTime
      if lastTime ≥ currentTime ∧ MAX_TIME_JUMP < timeDiff then
        cont { s with lastTime := some currentTime,
                      ctx := (s.ctx.bumpRead).bumpInvalid,
                      ptr := s.reader.ptr }
      else
        handleMainIter fd cont { s with lastTime := some currentTime } ft frame
    | none =>
      handleMainIter fd cont { s with lastTime := some currentTime } ft frame

/-- One iteration of the `while ptr < data_len` loop of
`Parser.frames()` (`parser.py` lines 123-230), dispatching on the
frame-type byte `b` at the cursor; `cont` continues the loop and `fuel`
bounds the inner field-parse loop. -/
def framesBody (fd : FieldDefs) (fuel : Nat)
    (cont : FramesState → PyResult (List Frame × FramesState))
    (s : FramesState) (b : Nat) : PyResult (List Frame × FramesState) :=
  match byteToFrameType b with
  | none => cont { s with ptr := s.ptr + 1, ctx := s.ctx.bumpInvalid }
  | some ft =>
    let s := { s with reader := { s.reader with ptr := s.ptr + 1 },
                      ctx := { s.ctx with frameType := ft } }
    match ft with
    | .EVENT =>
      match parseEventFrame s.reader s.lastTime s.lastIter with
      | .div => .div
      | .err e => .err e
      | .ok (success, r1, ev?, endFlag) =>
        let ctx1 := if success then s.ctx else s.ctx.bumpInvalid
        let s1 := { s with reader := r1,
                           ctx := ctx1.bumpRead,
                           events := s.events ++ ev?.toList,
                           endOfLog := s.endOfLog || endFlag }
        if s1.endOfLog then .ok ([], s1)
        else cont { s1 with ptr := r1.ptr }
    | _ =>
      match fd ft with
      | none => cont { s with ctx := (s.ctx.bumpInvalid).bumpRead, ptr := s.ptr + 1 }
      | some fdefs =>
        match parseFrameOptimized fdefs fuel s.reader s.ctx with
        | .div => .div
        | .err e => .err e
        | .ok (none, r1, ctx1) =>
          cont { s with reader := r1, ctx := ctx1.bumpInvalid, ptr := r1.ptr }
        | .ok (some frame, r1, ctx1) =>
          let s1 := { s with reader := r1, ctx := ctx1 }
          match ft with
          | .SLOW =>
            cont { s1 with lastSlow := some frame,
                           lastSlowData := some frame.data,
                           ctx := s1.ctx.bumpRead, ptr := r1.ptr }
          | .GPS =>
            cont { s1 with lastGps := some frame,
                           lastGpsData := some frame.data,
                           ctx := s1.ctx.bumpRead, ptr := r1.ptr }
          | .GPS_HOME =>
            cont { s1 with ctx := (s1.ctx.addFrame frame).bumpRead, ptr := r1.ptr }
          | _ => handleMain fd cont s1 ft frame

/-- The `Parser.frames()` generator (`parser.py` lines 101-230) as a
fuel-indexed loop.  The loop guard `while ptr < data_len` and the read
`byte_val = frame_data[ptr]` (lines 123-125) are combined into one
`get?`: it returns a byte exactly when `ptr < data_len`.  The run ends
at the buffer end regardless of remaining fuel; `.div` only when fuel
runs out with bytes remaining. -/
def framesLoop (fd : FieldDefs) (fuel : Nat) (s : FramesState) :
    PyResult (List Frame × FramesState) :=
  match s.reader.data.get? s.ptr with
  | none => .ok ([], s)
  | some b =>
    if hf : fuel = 0 then .div
    else framesBody fd (fuel - 1) (framesLoop fd (fuel - 1)) s b
termination_by fuel
decreasing_by
  omega

/-! ## Header parsing (`reader.py` lines 164-191) -/

/-- A scalar header value: Python `None`, `int`, `float` (exact decimal
literals as rationals) or `str`. -/
inductive HScalar where
  | hnone
  | hint (n : Int)
  | hrat (q : ℚ)
  | hstr (s : String)
  deriving DecidableEq, Repr

/-- A header value: a scalar or a comma-separated list of scalars
(`reader.py` line 189). -/
inductive HVal where
  | scalar (s : HScalar)
  | hlist (l : List HScalar)
  deriving DecidableEq, Repr

/-- Split a character list at the first occurrence of `c`
(Python `split(c, 1)` when it succeeds). -/
def splitFirst (c : Char) : List Char → Option (List Char × List Char)
  | [] => none
  | x :: xs =>
    if x = c then some ([], xs)
    else
      match splitFirst c xs with
      | none => none
      | some (a, b) => some (x :: a, b)

/-- Python `split(c)` without a maxsplit: split at every occurrence
(empty pieces preserved, the empty string yielding one empty piece). -/
def splitAll (c : Char) : List Char → List (List Char)
  | [] => [[]]
  | x :: xs =>
    if x = c then [] :: splitAll c xs
    else
      match splitAll c xs with
      | [] => [[x]]
      | a :: rest => (x :: a) :: rest

/-- Python `str.strip()` whitespace (space, tab, newline, carriage
return, vertical tab, form feed). -/
def isPySpace (c : Char) : Bool :=
  c = ' ' || c = Char.ofNat 9 || c = Char.ofNat 10 || c = Char.ofNat 13 ||
  c = Char.ofNat 11 || c = Char.ofNat 12

/-- Python `str.strip()`. -/
def pyStrip (l : List Char) : List Char :=
  ((l.dropWhile isPySpace).reverse.dropWhile isPySpace).reverse

/-- Natural number denoted by a digit string. -/
def natOfDigits (l : List Char) : Nat :=
  l.foldl (fun a c => a * 10 + (c.toNat - 48)) 0

/-- Parse a Python `int()` literal in the common form used by headers:
an optional minus sign followed by at least one digit. -/
def parseIntChars : List Char → Option Int
  | [] => none
  | '-' :: rest =>
    if rest ≠ [] ∧ rest.all Char.isDigit then some (-(natOfDigits rest : Int))
    else none
  | l =>
    if l.all Char.isDigit then some ((natOfDigits l : Int)) else none

/-- Parse a Python `float()` literal in the common decimal form used by
headers: optional minus sign, digits, a dot, digits (at least one digit
overall), valued exactly as a rational. -/
def parseRatChars (l : List Char) : Option ℚ :=
  let signed : Bool × List Char :=
    match l with
    | '-' :: rest => (true, rest)
    | _ => (false, l)
  match splitFirst '.' signed.2 with
  | none => none
  | some (a, b) =>
    if (a ≠ [] ∨ b ≠ []) ∧ a.all Char.isDigit ∧ b.all Char.isDigit then
      let v : ℚ := (natOfDigits a : ℚ) + (natOfDigits b : ℚ) / ((10 : ℚ) ^ b.length)
      some (if signed.1 then -v else v)
    else none

/-- Modelled from the spec: `_trycast` from `tools.py` (not among the
given sources).  Spec section 6: a scalar is decoded as integer, then
float, then string, in that preference order. -/
def tryCast (s : String) : HScalar :=
  match parseIntChars s.toList with
  | some n => .hint n
  | none =>
    match parseRatChars s.toList with
    | some q => .hrat q
    | none => .hstr s

/-- Replace the first occurrence of `pat` (Python
`line.replace(pat, "", 1)` with an empty replacement). -/
def replaceFirstStr (pat : List Char) : List Char → List Char
  | [] => []
  | x :: xs =>
    if pat.isPrefixOf (x :: xs) then (x :: xs).drop pat.length
    else x :: replaceFirstStr pat xs

/-- Update (or append) a key in an insertion-ordered association list,
as assignment into a Python dict does. -/
def updateAssoc {α : Type} : List (String × α) → String → α → List (String × α)
  | [], k, v => [(k, v)]
  | (k1, v1) :: rest, k, v =>
    if k1 = k then (k, v) :: rest else (k1, v1) :: updateAssoc rest k v

/-- Look up a key in an association list (Python `dict.get`). -/
def lookupAssoc {α : Type} (l : List (String × α)) (k : String) : Option α :=
  (l.find? (fun p => p.1 == k)).map (fun p => p.2)

/-- The parsed headers mapping, insertion-ordered like a Python dict. -/
abbrev Headers : Type := List (String × HVal)

/-- Embeds `bytes.decode()` restricted to the ASCII range (all header bytes in
the claims are ASCII; a byte outside it is modelled as the decode
error, which is a `ValueError` in Python). -/
def decodeAsciiLine (data : List Nat) : PyResult (List Char) :=
  if data.all (fun b => b < 128) then .ok (data.map Char.ofNat)
  else .err .valueError

/-- Embeds `Reader._parse_header_line` (`reader.py` lines 179-191): a line not
starting with `H` (byte 72) reports no-more-headers; otherwise the line
is decoded, the first `"H "` is removed, and the remainder is unpacked
as `name, value = line.split(':', 1)` — when the line contains no colon
this unpacking of a one-element list raises `ValueError`.  The value is
`_trycast` of the stripped scalar, or the list of casts when it
contains a comma. -/
def parseHeaderLine (data : List Nat) (hs : Headers) :
    PyResult (Bool × Headers) :=
  match data.get? 0 with
  | none => .err .indexError
  | some b =>
    if b ≠ 72 then .ok (false, hs)
    else
      match decodeAsciiLine data with
      | .div => .div
      | .err e => .err e
      | .ok chars =>
        let line := replaceFirstStr [Char.ofNat 72, ' '] chars
        match splitFirst ':' line with
        | none => .err .valueError
        | some (namePart, valuePart) =>
          let name := String.mk (pyStrip namePart)
          let value : HVal :=
            if valuePart.contains ',' then
              .hlist ((splitAll ',' valuePart).map
                (fun p => tryCast (String.mk (pyStrip p))))
            else .scalar (tryCast (String.mk (pyStrip valuePart)))
          .ok (true, updateAssoc hs name value)

/-- Embeds `Reader._update_headers` (`reader.py` lines 164-177) over the lines
of the session: parse header lines until one reports no-more-headers
(or the lines run out); exceptions from `_parse_header_line`
propagate. -/
def updateHeaders : List (List Nat) → Headers → PyResult Headers
  | [], hs => .ok hs
  | l :: ls, hs =>
    match parseHeaderLine l hs with
    | .div => .div
    | .err e => .err e
    | .ok (false, hs1) => .ok hs1
    | .ok (true, hs1) => updateHeaders ls hs1

/-! ## Field-definition build (`reader.py` lines 206-247) -/

/-- A decoder binding resolved at build time: versioned decoders are
short-circuited with the `Data version` header (`reader.py` lines
236-241); the decoder functions themselves live in `decoders.py`. -/
inductive DecoderRef where
  | plain (id : Int)
  | versioned (id : Int) (dataVersion : Option HVal)
  deriving DecidableEq, Repr

/-- A field definition as `_build_field_defs` constructs it: the raw
property values written through `__dict__[prop]` plus the bound
predictor and decoder.  Modelled from the spec: the `FieldDef` defaults
(`types.py` is not among the given sources) are Python `None`. -/
structure FieldDefB where
  name : HScalar
  signed : HScalar
  predictor : HScalar
  encoding : HScalar
  width : HScalar
  other : List (String × HScalar)
  boundPredictor : Option Int
  boundDecoder : Option DecoderRef
  deriving DecidableEq, Repr

/-- The freshly constructed `FieldDef(frame_type)`. -/
def FieldDefB.init : FieldDefB :=
  { name := .hnone, signed := .hnone, predictor := .hnone,
    encoding := .hnone, width := .hnone, other := [],
    boundPredictor := none, boundDecoder := none }

/-- Embeds `field_defs[frame_type][i].__dict__[prop] = framedef_value`
(`reader.py` line 226): dynamic attribute write, dispatched on the
property name. -/
def FieldDefB.setProp (d : FieldDefB) (prop : String) (v : HScalar) :
    FieldDefB :=
  if prop = "name" then { d with name := v }
  else if prop = "signed" then { d with signed := v }
  else if prop = "predictor" then { d with predictor := v }
  else if prop = "encoding" then { d with encoding := v }
  else if prop = "width" then { d with width := v }
  else { d with other := updateAssoc d.other prop v }

/-- Read back the attribute written by `setProp`. -/
def FieldDefB.getProp (d : FieldDefB) (prop : String) : Option HScalar :=
  if prop = "name" then some d.name
  else if prop = "signed" then some d.signed
  else if prop = "predictor" then some d.predictor
  else if prop = "encoding" then some d.encoding
  else if prop = "width" then some d.width
  else lookupAssoc d.other prop

/-- Python `framedef_value == 7`: true for the integer 7 and for a float
numerically equal to 7. -/
def hvalIsSeven : HScalar → Bool
  | .hint n => n == 7
  | .hrat q => q == 7
  | _ => false

/-- The key a scalar presents to the decoder/predictor registry dicts:
integers directly; a float with integral value hits the equal integer
key.  `none` never matches. -/
def hvalRegistryKey : HScalar → Option Int
  | .hint n => some n
  | .hrat q => if q.den = 1 then some q.num else none
  | _ => none

/-- The per-value body of the `_build_field_defs` inner loop
(`reader.py` lines 223-241), parametrized by the predictor registry
`pIds`, decoder registry `dIds` and the set `vIds` of versioned decoder
ids (the registries live in `predictors.py` / `decoders.py`, which are
not among the given sources).  When the field's current name is
`GPS_coord[1]` and the incoming value equals 7, the value is rewritten
to 256 before being stored and bound — for every property, since the
source checks only the name and the value.  A registry miss raises
`RuntimeError`. -/
def assignProp (pIds dIds vIds : Int → Bool) (dataVersion : Option HVal)
    (d : FieldDefB) (prop : String) (v : HScalar) : PyResult FieldDefB :=
  let v := if d.name == HScalar.hstr "GPS_coord[1]" && hvalIsSeven v then
      HScalar.hint 256
    else v
  let d := d.setProp prop v
  if prop = "predictor" then
    match hvalRegistryKey v with
    | some n =>
      if pIds n then .ok { d with boundPredictor := some n }
      else .err .runtimeError
    | none => .err .runtimeError
  else if prop = "encoding" then
    match hvalRegistryKey v with
    | some n =>
      if dIds n then
        let ref := if vIds n then DecoderRef.versioned n dataVersion
          else DecoderRef.plain n
        .ok { d with boundDecoder := some ref }
      else .err .runtimeError
    | none => .err .runtimeError
  else .ok d

/-- Embeds `len(header_value)`: length of a list value, character count of a
string scalar, `TypeError` for other scalars. -/
def lenOfHVal : HVal → PyResult Nat
  | .hlist l => .ok l.length
  | .scalar (.hstr s) => .ok s.length
  | .scalar _ => .err .typeError

/-- Embeds `enumerate(header_value)`: the elements of a list value, the
characters of a string scalar (each a one-character string),
`TypeError` for other scalars. -/
def enumerateHVal : HVal → PyResult (List HScalar)
  | .hlist l => .ok l
  | .scalar (.hstr s) => .ok (s.toList.map (fun c => .hstr (String.mk [c])))
  | .scalar _ => .err .typeError

/-- Embeds `for i, framedef_value in enumerate(header_value)` (`reader.py`
line 222): assign each value to the field definition at its index. -/
def assignAll (pIds dIds vIds : Int → Bool) (dataVersion : Option HVal)
    (prop : String) :
    List FieldDefB → Nat → List HScalar → PyResult (List FieldDefB)
  | defs, _, [] => .ok defs
  | defs, i, v :: vs =>
    match defs.get? i with
    | none => .err .indexError
    | some d =>
      match assignProp pIds dIds vIds dataVersion d prop v with
      | .div => .div
      | .err e => .err e
      | .ok d1 => assignAll pIds dIds vIds dataVersion prop (defs.set i d1) (i + 1) vs

/-- Embeds `frame_type.value` (`types.py` not among the given sources; spec
section 4.4 gives the tag characters). -/
def ftChar : FrameType → String
  | .INTRA => "I"
  | .INTER => "P"
  | .SLOW => "S"
  | .GPS => "G"
  | .GPS_HOME => "H"
  | .EVENT => "E"

/-- Python `needle in hay` on strings. -/
def strContains (hay needle : String) : Bool :=
  hay.toList.tails.any (fun t => needle.toList.isPrefixOf t)

/-- Embeds `header_key.split(" ", 2)[-1]` (`reader.py` line 221). -/
def splitMax2Last (s : String) : String :=
  match splitFirst ' ' s.toList with
  | none => s
  | some (_, rest1) =>
    match splitFirst ' ' rest1 with
    | none => String.mk rest1
    | some (_, rest2) => String.mk rest2

/-- The `if frame_type not in field_defs` initialization (`reader.py`
lines 219-220): the first contributing header fixes the vector length. -/
def ensureDefs (acc : Option (List FieldDefB)) (v : HVal) :
    PyResult (List FieldDefB) :=
  match acc with
  | some defs => .ok defs
  | none =>
    match lenOfHVal v with
    | .div => .div
    | .err e => .err e
    | .ok n => .ok (List.replicate n FieldDefB.init)

/-- The inner header loop of `_build_field_defs` for one frame type
(`reader.py` lines 215-241): headers whose key contains
`"Field " + frame_type.value` contribute; the first such header fixes
the vector length. -/
def buildForType (pIds dIds vIds : Int → Bool) (dataVersion : Option HVal)
    (ft : FrameType) :
    List (String × HVal) → Option (List FieldDefB) →
    PyResult (Option (List FieldDefB))
  | [], acc => .ok acc
  | (k, v) :: rest, acc =>
    if strContains k ("Field " ++ ftChar ft) then
      match ensureDefs acc v with
      | .div => .div
      | .err e => .err e
      | .ok defs =>
        let prop := splitMax2Last k
        match enumerateHVal v with
        | .div => .div
        | .err e => .err e
        | .ok elems =>
          match assignAll pIds dIds vIds dataVersion prop defs 0 elems with
          | .div => .div
          | .err e => .err e
          | .ok defs1 => buildForType pIds dIds vIds dataVersion ft rest (some defs1)
    else
      buildForType pIds dIds vIds dataVersion ft rest acc

/-- The name copy from Intra to Inter definitions (`reader.py` lines
245-247): `fdef.name = field_defs[FrameType.INTRA][i].name` for each
Inter definition. -/
def copyNamesLoop (intras : List FieldDefB) :
    List FieldDefB → Nat → PyResult (List FieldDefB)
  | [], _ => .ok []
  | d :: ds, i =>
    match intras.get? i with
    | none => .err .indexError
    | some dI =>
      match copyNamesLoop intras ds (i + 1) with
      | .div => .div
      | .err e => .err e
      | .ok rest => .ok ({ d with name := dI.name } :: rest)

/-- The frame-type fold of `_build_field_defs` (`reader.py` lines
213-241): process the header mapping once per frame type, in
declaration order. -/
def buildAllTypes (pIds dIds vIds : Int → Bool) (dataVersion : Option HVal)
    (headers : List (String × HVal)) :
    List FrameType → (FrameType → Option (List FieldDefB)) →
    PyResult (FrameType → Option (List FieldDefB))
  | [], acc => .ok acc
  | ft :: fts, acc =>
    match buildForType pIds dIds vIds dataVersion ft headers (acc ft) with
    | .div => .div
    | .err e => .err e
    | .ok r =>
      buildAllTypes pIds dIds vIds dataVersion headers fts
        (fun ft1 => if ft1 = ft then r else acc ft1)

/-- Embeds `Reader._build_field_defs` (`reader.py` lines 206-247): build the
per-kind field-definition vectors from the headers, then — when Inter
definitions exist — copy the Inter names from Intra (`KeyError` when
Intra is absent, `IndexError` when it is shorter). -/
def buildFieldDefs (pIds dIds vIds : Int → Bool) (headers : Headers) :
    PyResult (FrameType → Option (List FieldDefB)) :=
  let dataVersion := lookupAssoc headers "Data version"
  match buildAllTypes pIds dIds vIds dataVersion headers
      [.INTRA, .INTER, .SLOW, .GPS, .GPS_HOME, .EVENT] (fun _ => none) with
  | .div => .div
  | .err e => .err e
  | .ok fd =>
    match fd .INTER with
    | none => .ok fd
    | some inters =>
      match fd .INTRA with
      | none => .err .keyError
      | some intras =>
        match copyNamesLoop intras inters 0 with
        | .div => .div
        | .err e => .err e
        | .ok inters1 =>
          .ok (fun ft => if ft = .INTER then some inters1 else fd ft)

/-! ## Parser-level state across session selection (`parser.py`) -/

/-- The `Parser` attributes relevant across `set_log_index` calls:
`_last_slow_data` and `_last_gps_data` (initialized once in `__init__`,
lines 56-57), `_events` and `_end_of_log`. -/
structure ParserState where
  lastSlowData : Option (List Cell)
  lastGpsData : Option (List Cell)
  events : List Event
  endOfLog : Bool
  deriving Repr

/-- Embeds `Parser.set_log_index` (`parser.py` lines 61-84): resets `_events`
and `_end_of_log` and rebuilds headers, context and field names from the
reader (all deterministic functions of the session, rebuilt identically
for the same index).  `_last_slow_data` and `_last_gps_data` are not
touched. -/
def setLogIndex (p : ParserState) : ParserState :=
  { p with events := [], endOfLog := false }

/-- The generator-local initialization of `Parser.frames()` (`parser.py`
lines 106-122) on top of the persisted parser attributes. -/
def initState (names : FrameType → List String) (counts : FrameType → Nat)
    (p : ParserState) (buffer : List Nat) : FramesState :=
  { reader := { data := buffer, ptr := 0 },
    ptr := 0,
    ctx := { frameType := .INTRA, fieldIndex := 0, currentFrame := [],
             invalidFrameCount := 0, readFrameCount := 0, lastIter := 0,
             frames := [], fieldNames := names, fieldDefCounts := counts },
    lastSlow := none, lastGps := none, lastTime := none, lastIter := 0,
    lastSlowData := p.lastSlowData, lastGpsData := p.lastGpsData,
    endOfLog := p.endOfLog, events := p.events }

/-- One full traversal of `Parser.frames()`: run the loop and read the
surviving parser attributes back out of the final state. -/
def parserFrames (fd : FieldDefs) (names : FrameType → List String)
    (counts : FrameType → Nat) (buffer : List Nat) (fuel : Nat)
    (p : ParserState) : PyResult (List Frame × ParserState) :=
  match framesLoop fd fuel (initState names counts p buffer) with
  | .div => .div
  | .err e => .err e
  | .ok (fs, st) =>
    .ok (fs, { lastSlowData := st.lastSlowData, lastGpsData := st.lastGpsData,
               events := st.events, endOfLog := st.endOfLog })

/-! ## Concrete sessions used to settle the claims -/

/-- A decoder that reads one byte and returns it as the field value. -/
def byteDecoder : Reader → Context → Option DecodedValue × Reader :=
  fun r _ =>
    let p := r.next
    (p.1.map (fun b => DecodedValue.scalar ((b : Int))), p.2)

/-- A decoder that reads one byte and scales it by 20,000,000 (a
microsecond timestamp far beyond `MAX_TIME_JUMP` per unit). -/
def timeScaleDecoder : Reader → Context → Option DecodedValue × Reader :=
  fun r _ =>
    let p := r.next
    (p.1.map (fun b => DecodedValue.scalar ((b : Int) * 20000000)), p.2)

/-- The identity predictor (predictor 0, "no prediction"). -/
def idPredictor : Int → Context → Int := fun v _ => v

/-- Build a runtime field definition from a name and a decoder. -/
def mkFieldDef (nm : String)
    (dec : Reader → Context → Option DecodedValue × Reader) : FieldDefRT :=
  { name := nm, decoderfun := dec, predictorfun := idPredictor }

/-- The yielded frame tuples of a run, when it neither raised nor
diverged. -/
def yieldedData (r : PyResult (List Frame × FramesState)) :
    Option (List (List Cell)) :=
  match r with
  | .ok (fs, _) => some (fs.map Frame.data)
  | _ => none

/-- The yielded frame tuple lengths of a run. -/
def yieldedLengths (r : PyResult (List Frame × FramesState)) :
    Option (List Nat) :=
  match r with
  | .ok (fs, _) => some (fs.map (fun f => f.data.length))
  | _ => none

/-- The final invalid-frame count of a run. -/
def invalidCountOf (r : PyResult (List Frame × FramesState)) : Option Nat :=
  match r with
  | .ok (_, st) => some st.ctx.invalidFrameCount
  | _ => none

/-- The yielded frame tuples of a parser-level traversal. -/
def traversalData (r : PyResult (List Frame × ParserState)) :
    Option (List (List Cell)) :=
  match r with
  | .ok (fs, _) => some (fs.map Frame.data)
  | _ => none

/-- Session for the time-desync claim: Intra frames carry
`loopIteration`, `time` (scaled by 20,000,000) and a trailing `dummy`
field; no other frame kinds are declared. -/
def c1FieldDefs : FieldDefs := fun ft =>
  match ft with
  | .INTRA => some [mkFieldDef "loopIteration" byteDecoder,
                    mkFieldDef "time" timeScaleDecoder,
                    mkFieldDef "dummy" byteDecoder]
  | _ => none

def c1Names : FrameType → List String := fun ft =>
  match ft with
  | .INTRA => ["loopIteration", "time", "dummy"]
  | _ => []

def c1Counts : FrameType → Nat := fun ft =>
  match ft with
  | .INTRA => 3
  | _ => 0

def freshParser : ParserState :=
  { lastSlowData := none, lastGpsData := none, events := [], endOfLog := false }

/-- Two Intra frames: times 20,000,000 then 0 — the second goes
backwards by twice `MAX_TIME_JUMP`. -/
def c1Buffer : List Nat := [73, 1, 1, 0, 73, 2, 0, 0]

def c1Run : PyResult (List Frame × FramesState) :=
  framesLoop c1FieldDefs 32 (initState c1Names c1Counts freshParser c1Buffer)

/-- Session for the reselection claim: Intra as above (unscaled time),
plus one declared Slow field; the buffer holds Intra, Slow, Intra. -/
def c2FieldDefs : FieldDefs := fun ft =>
  match ft with
  | .INTRA => some [mkFieldDef "loopIteration" byteDecoder,
                    mkFieldDef "time" byteDecoder,
                    mkFieldDef "dummy" byteDecoder]
  | .SLOW => some [mkFieldDef "s0" byteDecoder]
  | _ => none

def c2Names : FrameType → List String := fun ft =>
  match ft with
  | .INTRA => ["loopIteration", "time", "dummy"]
  | .SLOW => ["s0"]
  | _ => []

def c2Counts : FrameType → Nat := fun ft =>
  match ft with
  | .INTRA => 3
  | .SLOW => 1
  | _ => 0

def c2Buffer : List Nat := [73, 1, 10, 0, 83, 42, 73, 2, 11, 0]

/-- First traversal after selecting the session. -/
def c2Run1 : PyResult (List Frame × ParserState) :=
  parserFrames c2FieldDefs c2Names c2Counts c2Buffer 32 (setLogIndex freshParser)

/-- The parser state after the first traversal. -/
def c2State1 : ParserState :=
  match c2Run1 with
  | .ok (_, p) => p
  | _ => freshParser

/-- Second traversal after re-selecting the same session. -/
def c2Run2 : PyResult (List Frame × ParserState) :=
  parserFrames c2FieldDefs c2Names c2Counts c2Buffer 32 (setLogIndex c2State1)

/-- Session for the tuple-length claim: Intra as above plus 51 declared
Slow fields (one more than the preallocated empty pad holds); the
buffer holds a single Intra frame and no Slow frame. -/
def c4FieldDefs : FieldDefs := fun ft =>
  match ft with
  | .INTRA => some [mkFieldDef "loopIteration" byteDecoder,
                    mkFieldDef "time" byteDecoder,
                    mkFieldDef "dummy" byteDecoder]
  | .SLOW => some ((List.range 51).map
      (fun i => mkFieldDef ("s" ++ toString i) byteDecoder))
  | _ => none

def c4Counts : FrameType → Nat := fun ft =>
  match ft with
  | .INTRA => 3
  | .SLOW => 51
  | _ => 0

def c4Buffer : List Nat := [73, 1, 10, 0]

def c4Run : PyResult (List Frame × FramesState) :=
  framesLoop c4FieldDefs 32 (initState c1Names c4Counts freshParser c4Buffer)

/-- String to ASCII bytes, for header lines. -/
def strBytes (s : String) : List Nat := s.toList.map Char.toNat

/-- Headers for the rewrite claim: a Gps field vector whose second field
is named `GPS_coord[1]`, followed by a `width` property carrying the
integer 7 at that index. -/
def c7Headers : Headers :=
  [("Field G name", .hlist [.hstr "GPS_A", .hstr "GPS_coord[1]"]),
   ("Field G width", .hlist [.hint 1, .hint 7])]

/-- Empty registries: the `name` and `width` properties consult none. -/
def noIds : Int → Bool := fun _ => false

def c7Result : PyResult (FrameType → Option (List FieldDefB)) :=
  buildFieldDefs noIds noIds noIds c7Headers

/-- The `width` attributes of the built Gps field definitions. -/
def c7Widths : Option (List HScalar) :=
  match c7Result with
  | .ok fd => (fd .GPS).map (fun (l : List FieldDefB) => l.map FieldDefB.width)
  | _ => none

/-- Header lines for the malformed-header claim: the second line starts
with `H` but has no colon. -/
def c8Lines : List (List Nat) :=
  [strBytes "H Product:Blackbox\n", strBytes "H garbage\n",
   strBytes "H Data version:2\n"]

/-- An empty field-def map. -/
def noFieldDefs : FieldDefs := fun _ => none

/-- A continuation that ends the loop immediately, for instantiating
the stage theorems. -/
def contOk : FramesState → PyResult (List Frame × FramesState) :=
  fun st => .ok ([], st)

/-- A context sitting just after a decoded main frame whose
`loopIteration` is 9000 (with the one-field current-frame quirk the
snapshot holds the first two of three fields). -/
def iterCtx : Context :=
  { frameType := .INTRA, fieldIndex := 2, currentFrame := [.int 9000, .int 5],
    invalidFrameCount := 0, readFrameCount := 0, lastIter := 0, frames := [],
    fieldNames := fun _ => ["loopIteration", "time"],
    fieldDefCounts := fun _ => 2 }

/-- A loop state whose tracked `last_iter` is 9001, ready for the
iteration check against a frame with `loopIteration = 9000`. -/
def iterState : FramesState :=
  { reader := { data := [], ptr := 0 }, ptr := 0, ctx := iterCtx,
    lastSlow := none, lastGps := none, lastTime := none, lastIter := 9001,
    lastSlowData := none, lastGpsData := none, endOfLog := false, events := [] }

def iterFrame : Frame := { ftype := .INTRA, data := [.int 9000, .int 5] }

/-- A session buffer holding an event frame with the log-end id followed
by garbage that is not the sentinel. -/
def c6State : FramesState :=
  initState c1Names c1Counts freshParser [69, 255, 1, 2]

/-- A session buffer whose single byte is the event tag `E`. -/
def c10State : FramesState :=
  initState c1Names c1Counts freshParser [69]

/-- A fresh field definition already named `GPS_coord[1]`. -/
def gpsCoordDef : FieldDefB :=
  { FieldDefB.init with name := .hstr "GPS_coord[1]" }

/-- The result of assigning `width := 7` to it. -/
def gpsCoordAssigned : FieldDefB :=
  match assignProp noIds noIds noIds none gpsCoordDef "width" (.hint 7) with
  | .ok d => d
  | _ => FieldDefB.init

/-! ## Helper lemmas -/

theorem framesLoop_exit (fd : FieldDefs) (fuel : Nat) (s : FramesState)
    (h : s.reader.data.get? s.ptr = none) :
    framesLoop fd fuel s = .ok ([], s) := by
  unfold framesLoop
  rw [h]

theorem framesLoop_step (fd : FieldDefs) (fuel : Nat) (s : FramesState)
    (b : Nat) (hb : s.reader.data.get? s.ptr = some b) :
    framesLoop fd (fuel + 1) s =
      framesBody fd fuel (framesLoop fd fuel) s b := by
  unfold framesLoop
  rw [hb]
  simp

theorem lookupAssoc_updateAssoc {α : Type} (l : List (String × α))
    (k : String) (v : α) :
    lookupAssoc (updateAssoc l k v) k = some v := by
  induction l with
  | nil => simp [updateAssoc, lookupAssoc, List.find?]
  | cons p rest ih =>
    unfold updateAssoc
    by_cases h : p.1 = k
    · rw [if_pos h]
      unfold lookupAssoc
      rw [List.find?_cons_of_pos _ (by simp)]
      rfl
    · rw [if_neg h]
      unfold lookupAssoc at ih ⊢
      rw [List.find?_cons_of_neg _ (by simp [h])]
      exact ih

theorem getProp_setProp (d : FieldDefB) (p : String) (v : HScalar) :
    (d.setProp p v).getProp p = some v := by
  unfold FieldDefB.setProp FieldDefB.getProp
  by_cases h1 : p = "name"
  · simp [h1]
  · by_cases h2 : p = "signed"
    · simp [h1, h2]
    · by_cases h3 : p = "predictor"
      · simp [h1, h2, h3]
      · by_cases h4 : p = "encoding"
        · simp [h1, h2, h3, h4]
        · by_cases h5 : p = "width"
          · simp [h1, h2, h3, h4, h5]
          · simp [h1, h2, h3, h4, h5, lookupAssoc_updateAssoc]

/-! ## Claim theorems -/

/-- Claim C1 (code-bug evidence): two consecutively yielded Intra
frames with times 20,000,000 then 0 — the previous tracked time exceeds
the current one and the absolute difference (20,000,000) exceeds
`MAX_TIME_JUMP = 10,000,000` — yet the second frame is yielded rather
than dropped and nothing is counted invalid, because the source's drop
condition `last_time >= current_time and MAX_TIME_JUMP < time_diff`
uses the signed difference `current_time - last_time`, which is never
above a positive bound when `last_time >= current_time`. -/
theorem c1_time_desync_never_drops :
    yieldedData c1Run =
      some [[.int 1, .int 20000000, .int 0], [.int 2, .int 0, .int 0]] ∧
    invalidCountOf c1Run = some 0 ∧
    MAX_TIME_JUMP = 10000000 := by
  refine ⟨?_, ?_, by decide⟩ <;>
    simp [c1Run, c1FieldDefs, c1Names, c1Counts, c1Buffer, freshParser,
      initState, framesLoop, framesBody, parseFrameOptimized, parseFieldsLoop,
      applyTupleElems, handleMain, handleMainIter, mainTail, buildFinalFrame,
      pySliceTo, emptyFrameData, Context.bumpRead, Context.bumpInvalid,
      Context.addFrame, Context.getCurrentValueByName, Reader.next,
      byteToFrameType, byteDecoder, timeScaleDecoder, idPredictor, mkFieldDef,
      MAX_TIME_JUMP, MAX_ITER_JUMP, yieldedData, invalidCountOf,
      List.indexOf?, List.findIdx?, List.get?, Option.map]

/-- Claim C2 (code-bug evidence): re-selecting the same session with
`set_log_index` and traversing again does not reproduce the first
traversal: `set_log_index` never resets `_last_slow_data`, so on the
second traversal the first main frame (which precedes every Slow frame)
carries the stale slow snapshot `42` of the first traversal instead of
the empty-string pad, contradicting the claim (and the method's own
docstring "The state of the parser will be reset"). -/
theorem c2_reselection_differs :
    traversalData c2Run1 =
      some [[.int 1, .int 10, .int 0, .str ""],
            [.int 2, .int 11, .int 0, .int 42]] ∧
    traversalData c2Run2 =
      some [[.int 1, .int 10, .int 0, .int 42],
            [.int 2, .int 11, .int 0, .int 42]] ∧
    traversalData c2Run1 ≠ traversalData c2Run2 := by
  refine ⟨?_, ?_, ?_⟩ <;>
    simp [c2Run1, c2Run2, c2State1, parserFrames, setLogIndex, traversalData,
      c2FieldDefs, c2Names, c2Counts, c2Buffer, freshParser,
      initState, framesLoop, framesBody, parseFrameOptimized, parseFieldsLoop,
      applyTupleElems, handleMain, handleMainIter, mainTail, buildFinalFrame,
      pySliceTo, emptyFrameData, Context.bumpRead, Context.bumpInvalid,
      Context.addFrame, Context.getCurrentValueByName, Reader.next,
      byteToFrameType, byteDecoder, timeScaleDecoder, idPredictor, mkFieldDef,
      MAX_TIME_JUMP, MAX_ITER_JUMP,
      List.indexOf?, List.findIdx?, List.get?, Option.map]

/-- Claim C4 counterexample: with 51 declared Slow fields and no Slow
frame observed, the single yielded Intra frame has tuple length
3 + 50 = 53, not 3 + 51 = 54 as the claim's formula requires — the
empty-string pad is sliced from the 50-element preallocated
`_empty_frame_data` and is therefore capped at 50. -/
theorem c4_pad_cap_counterexample :
    yieldedLengths c4Run = some [53] ∧
    invalidCountOf c4Run = some 0 ∧
    (53 : Nat) ≠ 3 + 51 := by
  refine ⟨?_, ?_, by decide⟩ <;>
    simp [c4Run, c4FieldDefs, c4Counts, c4Buffer, c1Names, freshParser,
      initState, framesLoop, framesBody, parseFrameOptimized, parseFieldsLoop,
      applyTupleElems, handleMain, handleMainIter, mainTail, buildFinalFrame,
      pySliceTo, emptyFrameData, Context.bumpRead, Context.bumpInvalid,
      Context.addFrame, Context.getCurrentValueByName, Reader.next,
      byteToFrameType, byteDecoder, timeScaleDecoder, idPredictor, mkFieldDef,
      MAX_TIME_JUMP, MAX_ITER_JUMP, yieldedLengths, invalidCountOf,
      List.indexOf?, List.findIdx?, List.get?, Option.map]

/-- Claim C5 (code-bug evidence): the inflight-adjustment float variant
— tag byte `0x88` (func = 8) followed by the big-endian IEEE-754 bits
of 1.0 — raises `NameError` instead of producing the payload
`(name "Pitch & Roll D", func 8, value 1000.0)`, because
`uint32ToFloat` references `struct`, which `events.py` never imports.
The table row for index 8 is as the claim states. -/
theorem c5_inflight_float_name_error :
    inflightAdjustment { data := [136, 63, 128, 0, 0], ptr := 0 } =
      .err .nameError ∧
    (136 &&& 127) = 8 ∧
    inflightAdjustmentFunctions.get? 8 =
      some ("Pitch & Roll D", none, some 1000) := by
  refine ⟨by decide, by decide, by decide⟩

/-- Claim C7 counterexample: for a field named `GPS_coord[1]`, a
`width` property with value 7 is also rewritten to 256 — the built Gps
definitions carry widths `[1, 256]` where the claim ("the rewrite
applies only to the encoding id") requires `[1, 7]`. -/
theorem c7_rewrite_hits_width :
    c7Widths = some [.hint 1, .hint 256] ∧
    c7Widths ≠ some [.hint 1, .hint 7] := by
  refine ⟨by decide, by decide⟩

/-- Claim C8 (code-bug evidence): a header line that starts with `H`
but cannot be split into a `name:value` pair (`"H garbage"`) raises
`ValueError` from the two-element unpacking of `line.split(':', 1)`,
and the header loop propagates the exception instead of skipping the
line with a warning and continuing — contradicting the claim and the
function's own docstring ("Return None if the line cannot be
parsed"). -/
theorem c8_malformed_header_raises :
    parseHeaderLine (strBytes "H garbage\n") [] = .err .valueError ∧
    updateHeaders c8Lines [] = .err .valueError := by
  refine ⟨by decide, by decide⟩

/-- Claim C9 counterexample: `Reader.seek` accepts a position strictly
greater than the session-buffer length — on a 3-byte buffer,
`seek(10)` succeeds and leaves the cursor at 10 — so seeking past the
end is not rejected. -/
theorem c9_seek_past_end_accepted :
    Reader.seek { data := [1, 2, 3], ptr := 0 } 10 =
      { data := [1, 2, 3], ptr := 10 } ∧
    ({ data := [1, 2, 3], ptr := 0 } : Reader).data.length < 10 := by
  refine ⟨by decide, by decide⟩

/-- Claim C9 amended: `Reader.seek(pos)` performs no bounds check at
all — it sets the cursor to `pos` unconditionally for every position,
so in particular every position in `[0, len]` is accepted, and so is
every position beyond the buffer length. -/
theorem c9_seek_unconditional (r : Reader) (n : Nat) :
    r.seek n = { data := r.data, ptr := n } := rfl

/-- Claim C3: in the iteration validation of `Parser.frames()`, a main
frame whose decoded `loopIteration` is `c` is dropped — the loop merely
continues, so the frame is never yielded — exactly when the previously
tracked iteration is greater-or-equal to `c` and `c + previous` exceeds
`MAX_ITER_JUMP = 5000`; on a drop both the frame counters are bumped
and the tracked iteration (local and in the context) becomes the
dropped frame's value.  When either conjunct fails the frame passes the
iteration check and proceeds to the stitching-and-yield stage. -/
theorem c3_iteration_desync (fd : FieldDefs)
    (cont : FramesState → PyResult (List Frame × FramesState))
    (s : FramesState) (ft : FrameType) (frame : Frame) (c : Int)
    (hc : s.ctx.getCurrentValueByName ft "loopIteration" = .ok c) :
    (s.lastIter ≥ c ∧ MAX_ITER_JUMP < c + s.lastIter →
      handleMainIter fd cont s ft frame =
        cont { s with ctx := ({ s.ctx with lastIter := c }.bumpRead).bumpInvalid,
                      lastIter := c, ptr := s.reader.ptr }) ∧
    (¬ (s.lastIter ≥ c ∧ MAX_ITER_JUMP < c + s.lastIter) →
      handleMainIter fd cont s ft frame =
        mainTail fd cont
          { s with ctx := { s.ctx with lastIter := c }, lastIter := c }
          ft frame) ∧
    MAX_ITER_JUMP = 5000 := by
  refine ⟨?_, ?_, by decide⟩
  · intro h
    unfold handleMainIter
    rw [hc]
    simp only [if_pos h]
  · intro h
    unfold handleMainIter
    rw [hc]
    simp only [if_neg h]

/-- Witness for C3: concrete drop with previous iteration 9001 and
current iteration 9000 (9001 ≥ 9000 and 9000 + 9001 > 5000). -/
theorem c3_iteration_desync_witness :
    handleMainIter noFieldDefs contOk iterState .INTRA iterFrame =
      contOk { iterState with
        ctx := ({ iterState.ctx with lastIter := 9000 }.bumpRead).bumpInvalid,
        lastIter := 9000, ptr := iterState.reader.ptr } :=
  (c3_iteration_desync noFieldDefs contOk iterState .INTRA iterFrame 9000
      (by simp [iterState, iterCtx, Context.getCurrentValueByName,
        List.indexOf?, List.findIdx?, List.get?])).1
    (by constructor <;> decide)

/-- Claim C4 amended: the frame built by `_build_final_frame` has tuple
length equal to the parsed main width plus — when Slow fields are
declared — the stored slow snapshot's width when one exists and
`min(|Slow|, 50)` otherwise, plus — when Gps fields are declared — the
stored gps snapshot's width minus one when one exists and
`min(|Gps| − 1, 50)` otherwise (degenerating to 49 for an empty Gps
vector, Python's negative slice): the empty-string pads are capped by
the 50-element preallocated `_empty_frame_data`. -/
theorem pad_len_cast (k : Nat) :
    (pySliceTo emptyFrameData (k : Int)).length = min k 50 := by
  unfold pySliceTo emptyFrameData
  rw [if_neg (by omega)]
  simp only [List.length_take, List.length_replicate]
  omega

theorem pad_len_pred (k : Nat) :
    (pySliceTo emptyFrameData ((k : Int) - 1)).length =
      if 1 ≤ k then min (k - 1) 50 else 49 := by
  unfold pySliceTo emptyFrameData
  by_cases hk : 1 ≤ k
  · rw [if_neg (by omega), if_pos hk]
    simp only [List.length_take, List.length_replicate]
    omega
  · have hk0 : k = 0 := by omega
    subst hk0
    rw [if_pos (by omega), if_neg hk]
    simp only [List.length_take, List.length_replicate, List.length_replicate]
    omega

theorem c4_final_frame_length (fd : FieldDefs)
    (sd gd : Option (List Cell)) (ft : FrameType) (frame : Frame) :
    (buildFinalFrame fd sd gd ft frame).data.length =
      frame.data.length +
      (match fd .SLOW, sd with
       | none, _ => 0
       | some _, some d => d.length
       | some defs, none => min defs.length 50) +
      (match fd .GPS, gd with
       | none, _ => 0
       | some _, some d => d.length - 1
       | some defs, none =>
         if 1 ≤ defs.length then min (defs.length - 1) 50 else 49) := by
  unfold buildFinalFrame
  cases hs : fd .SLOW <;> cases sd <;> cases hg : fd .GPS <;> cases gd <;>
    simp [pad_len_cast, pad_len_pred, List.length_append, List.length_drop,
      Nat.add_assoc]

/-- Claim C6: an event frame with the log-end id (byte `0xFF` after the
`E` tag) ends the iteration in that very step — whatever bytes follow
and regardless of remaining fuel — with the terminal flag set, the
log-end event recorded, the frame counted as read (not invalid), and
the cursor exactly two bytes further: `logging_end` checks for the
`End of log` sentinel via `has_subsequent` without consuming anything
(it returns any reader unchanged), and the missing sentinel is only
logged, never fatal. -/
theorem c6_log_end_terminates (fd : FieldDefs) (fuel : Nat)
    (s : FramesState)
    (hb : s.reader.data.get? s.ptr = some 69)
    (hid : s.reader.data.get? (s.ptr + 1) = some 255) :
    framesLoop fd (fuel + 1) s =
      .ok ([], { s with
        reader := { data := s.reader.data, ptr := s.ptr + 1 + 1 },
        ctx := Context.bumpRead { s.ctx with frameType := .EVENT },
        events := s.events ++
          [{ etype := .LOG_END, data := none, time := s.lastTime,
             iter := s.lastIter }],
        endOfLog := true }) ∧
    loggingEnd s.reader = .ok (none, s.reader) := by
  refine ⟨?_, rfl⟩
  rw [framesLoop_step fd fuel s 69 hb]
  have hne : ¬ s.reader.data.length = s.ptr + 1 := by
    have := (List.get?_eq_some.mp hid).1
    omega
  have hpe : parseEventFrame { data := s.reader.data, ptr := s.ptr + 1 }
      s.lastTime s.lastIter =
      .ok (true, { data := s.reader.data, ptr := s.ptr + 1 + 1 },
        some { etype := .LOG_END, data := none, time := s.lastTime,
               iter := s.lastIter }, true) := by
    unfold parseEventFrame Reader.next
    simp only [hne, if_false, hid]
    simp [eventTypeOfByte, eventParserFor, loggingEnd]
  unfold framesBody
  simp only [byteToFrameType]
  rw [hpe]
  simp [Option.toList, Bool.or_true]

/-- Claim C10: when the byte at the cursor is the event tag `E` and it
is the final byte of the session buffer, the frame loop finishes
normally in that step — the event-id read returns the absent byte,
`EventType` lookup fails with a caught `ValueError`, the frame is
counted invalid (and read), no event is recorded, and the loop exits
at the buffer end regardless of remaining fuel; no exception
escapes. -/
theorem c10_event_at_buffer_end (fd : FieldDefs) (fuel : Nat)
    (s : FramesState)
    (hlen : s.reader.data.length = s.ptr + 1)
    (hb : s.reader.data.get? s.ptr = some 69)
    (hEnd : s.endOfLog = false) :
    framesLoop fd (fuel + 1) s =
      .ok ([], { s with
        reader := { data := s.reader.data, ptr := s.ptr + 1 },
        ctx := Context.bumpRead
          (Context.bumpInvalid { s.ctx with frameType := .EVENT }),
        ptr := s.ptr + 1 }) := by
  rw [framesLoop_step fd fuel s 69 hb]
  have hpe : parseEventFrame { data := s.reader.data, ptr := s.ptr + 1 }
      s.lastTime s.lastIter =
      .ok (false, { data := s.reader.data, ptr := s.ptr + 1 }, none, false) := by
    unfold parseEventFrame Reader.next
    simp only [hlen, if_pos]
    simp [eventTypeOfByte]
  unfold framesBody
  simp only [byteToFrameType]
  rw [hpe]
  simp only [Option.toList, Bool.or_false, List.append_nil, hEnd,
    Bool.false_eq_true, if_false]
  rw [framesLoop_exit]
  simp [List.get?_eq_none, hlen]

/-- Witness for C6: the buffer `[69, 255, 1, 2]` (log-end event id with
garbage instead of the sentinel) terminates with the terminal flag set
and the garbage unread. -/
theorem c6_log_end_terminates_witness :
    framesLoop c1FieldDefs (0 + 1) c6State =
      .ok ([], { c6State with
        reader := { data := c6State.reader.data, ptr := c6State.ptr + 1 + 1 },
        ctx := Context.bumpRead { c6State.ctx with frameType := .EVENT },
        events := c6State.events ++
          [{ etype := .LOG_END, data := none, time := c6State.lastTime,
             iter := c6State.lastIter }],
        endOfLog := true }) ∧
    loggingEnd c6State.reader = .ok (none, c6State.reader) :=
  c6_log_end_terminates c1FieldDefs 0 c6State rfl rfl

/-- Witness for C10: the one-byte buffer `[69]` terminates normally
with the invalid counter bumped. -/
theorem c10_event_at_buffer_end_witness :
    framesLoop c1FieldDefs (0 + 1) c10State =
      .ok ([], { c10State with
        reader := { data := c10State.reader.data, ptr := c10State.ptr + 1 },
        ctx := Context.bumpRead
          (Context.bumpInvalid { c10State.ctx with frameType := .EVENT }),
        ptr := c10State.ptr + 1 }) :=
  c10_event_at_buffer_end c1FieldDefs 0 c10State rfl rfl rfl

/-- The bound-function fields do not affect property reads. -/
theorem getProp_boundPredictor (d : FieldDefB) (bp : Option Int)
    (p : String) :
    ({ d with boundPredictor := bp }).getProp p = d.getProp p := rfl

theorem getProp_boundDecoder (d : FieldDefB) (bd : Option DecoderRef)
    (p : String) :
    ({ d with boundDecoder := bd }).getProp p = d.getProp p := rfl

/-- Claim C7 amended: in `_build_field_defs`, the value-7-to-256
rewrite applies to the incoming value of EVERY property assigned to a
field whose current name is `GPS_coord[1]` — the source checks only the
field name and the value, not which property is being written — so
whenever the assignment succeeds, the stored property value is the
rewritten value: 256 exactly when the name is `GPS_coord[1]` and the
raw value equals 7, the raw value otherwise (the encoding case, where
the rewrite selects the latitude decoder, is one instance). -/
theorem c7_rewrite_any_property (pIds dIds vIds : Int → Bool)
    (dv : Option HVal) (d : FieldDefB) (prop : String) (v : HScalar)
    (d1 : FieldDefB)
    (hok : assignProp pIds dIds vIds dv d prop v = .ok d1) :
    d1.getProp prop =
      some (if d.name == HScalar.hstr "GPS_coord[1]" && hvalIsSeven v then
        HScalar.hint 256 else v) := by
  unfold assignProp at hok
  dsimp only [] at hok
  split at hok
  · split at hok
    · split at hok
      · cases hok
        rw [getProp_boundPredictor]
        exact getProp_setProp d prop _
      · exact absurd hok (by simp)
    · exact absurd hok (by simp)
  · split at hok
    · split at hok
      · split at hok
        · cases hok
          rw [getProp_boundDecoder]
          exact getProp_setProp d prop _
        · exact absurd hok (by simp)
      · exact absurd hok (by simp)
    · cases hok
      exact getProp_setProp d prop _

/-- Witness for C7: assigning `width := 7` to a field named
`GPS_coord[1]` stores 256. -/
theorem c7_rewrite_any_property_witness :
    gpsCoordAssigned.getProp "width" =
      some (if gpsCoordDef.name == HScalar.hstr "GPS_coord[1]" &&
          hvalIsSeven (.hint 7) then
        HScalar.hint 256 else .hint 7) :=
  c7_rewrite_any_property noIds noIds noIds none gpsCoordDef "width"
    (.hint 7) gpsCoordAssigned rfl

end Orangebox
